import Mathlib

/-!
# Walmart review scraper — verification of the frontend core

This file embeds the two page variants of the frontend of the repository
(`src/unnamed/part_000` and `src/frontend/pages/index.tsx`) and, where a claim
is decided by the backend review engine that is not part of `src/`, a model of
that engine built from the specification.

JS numbers are modelled as `ℚ` (no NaN/Infinity arise in the fragments
embedded here), JS strings as `String` over `Char` (the identifiers and
messages involved are ASCII, where UTF-16 `length` and `String.length`
coincide).
-/

namespace WalmartScraper

/-- The `Review` type — field-for-field embedding of the TypeScript `Review` type
declared identically in both `src/unnamed/part_000` and
`src/frontend/pages/index.tsx` (lines 3–15).  `T | null` becomes `Option T`. -/
structure Review where
  review_id : Option String
  author_name : String
  rating : Option ℚ
  title : String
  body : String
  created_at : Option String
  verified_purchase : Bool
  location : Option String
  helpful_count : ℕ
  not_helpful_count : ℕ
  images : List String
deriving DecidableEq

/-- The `ProductResult` type — embedding of the TypeScript `ProductResult` type
(`src/unnamed/part_000` lines 17–29).  The `rating_breakdown` record is an
association list from star-value keys to counts; `best_reviews` /
`worst_reviews` are optional fields (`?` in the source). -/
structure ProductResult where
  item_id : String
  product_url : Option String
  scraped_at : String
  product_title : Option String
  average_rating : Option ℚ
  total_ratings : Option ℤ
  total_reviews : Option ℤ
  rating_breakdown : List (String × ℕ)
  reviews : List Review
  best_reviews : Option (List Review)
  worst_reviews : Option (List Review)
deriving DecidableEq

/-- The `ErrorResult` type — embedding of the TypeScript `ErrorResult` type
(`src/unnamed/part_000` lines 31–34). -/
structure ErrorResult where
  item_id : String
  error : String
deriving DecidableEq

/-- The `ApiResponse` type — embedding of the TypeScript `ApiResponse` type
(`src/unnamed/part_000` lines 36–39).  Both fields carry `?` in the source,
i.e. each may be absent, hence `Option`. -/
structure ApiResponse where
  results : Option (List ProductResult)
  errors : Option (List ErrorResult)
deriving DecidableEq

/-! ## Identifier tokenization

Both submit handlers compute
`itemIdsText.split(/[\s,\n]+/).map(i => i.trim()).filter(Boolean)`.
Splitting on a *run* of separator characters and dropping empty pieces is the
same as splitting at every single separator character and dropping empty
pieces, which is how `tokenizeIds` is written.  A produced token contains no
separator character, and every character removed by JS `trim()` is a
separator, so the `trim` step is the identity on the split pieces and is not
repeated here.  We model the ASCII part of the `\s` class (both handlers use
the identical regex, so any narrowing is common to both). -/

/-- One separator character of the regex `[\s,\n]` (ASCII fragment). -/
def isSepChar (c : Char) : Bool :=
  c = ' ' || c = '\t' || c = '\n' || c = '\r' || c = '\x0b' || c = '\x0c' || c = ','

/-- Split a character list at every separator character, keeping (possibly
empty) pieces, accumulating the current piece in reverse in `acc`. -/
def splitSeps : List Char → List Char → List (List Char)
  | [], acc => [acc.reverse]
  | c :: rest, acc =>
    if isSepChar c then acc.reverse :: splitSeps rest []
    else splitSeps rest (c :: acc)

/-- The `ids` value both handlers compute from the textarea text:
split on separators, then drop empty strings (`filter(Boolean)`). -/
def tokenizeIds (text : String) : List String :=
  ((splitSeps text.toList []).map (fun cs => String.mk cs)).filter (fun s => s ≠ "")

/-! ## Identifier format validation (`src/unnamed/part_000` lines 68–77) -/

/-- The two global replaces applied to `id` before matching: remove every
dash and every underscore character. -/
def stripDashUnderscore (s : String) : String :=
  String.mk (s.toList.filter (fun c => c ≠ '-' && c ≠ '_'))

/-- One character of the class `[a-zA-Z0-9]`. -/
def isAsciiAlphanum (c : Char) : Bool :=
  ('a' ≤ c && c ≤ 'z') || ('A' ≤ c && c ≤ 'Z') || ('0' ≤ c && c ≤ '9')

/-- The predicate of the `invalidIds` filter in `src/unnamed/part_000`
(lines 69–72): `id.length > 20 || id.length < 6 ||
!cleaned.match(/^[a-zA-Z0-9]+$/)`.  The regex match succeeds exactly when
`cleaned` is non-empty and all its characters are alphanumeric. -/
def invalidId (id : String) : Bool :=
  let cleaned := stripDashUnderscore id
  id.length > 20 || id.length < 6
    || !(cleaned.length ≥ 1 && cleaned.toList.all isAsciiAlphanum)

/-- Modelled from the spec: the backend Identifier Validator (§4.1) is not
under `src/`.  Its rule, in the words of the spec: "strip `-`/`_`, reject if
resulting length < 6 or original length > 20, or if stripped string contains
non-alphanumeric characters."  `specAccepts id = true` means the validator
answers `Ok`.  This is also the acceptance condition asserted by claim C1. -/
def specAccepts (id : String) : Bool :=
  (stripDashUnderscore id).length ≥ 6 && id.length ≤ 20
    && (stripDashUnderscore id).toList.all isAsciiAlphanum

/-! ## The two submit handlers -/

/-- The request body `{item_ids, max_reviews_per_item}` both handlers send
to the scrape endpoint.  `max_reviews_per_item` is `Number(maxReviews)`, a JS
number. -/
structure RequestBody where
  item_ids : List String
  max_reviews_per_item : ℚ
deriving DecidableEq

/-- Outcome of a submit handler up to the point of dispatch: either it set an
error message and returned without fetching, or it issued the fetch with the
given body. -/
inductive SubmitOutcome where
  | rejected (msg : String)
  | request (body : RequestBody)
deriving DecidableEq

/-- The `handleSubmit` of `src/unnamed/part_000` (lines 48–88), up to the
dispatch decision: tokenization, the empty guard, the `> 10` guard, the
`invalidIds` guard, then the fetch body. -/
def handleSubmitMain (text : String) (maxReviews : ℚ) : SubmitOutcome :=
  let ids := tokenizeIds text
  if ids.length = 0 then
    .rejected "Please enter at least one item ID."
  else if ids.length > 10 then
    .rejected "Maximum 10 items allowed. Please reduce the number of item IDs."
  else
    let invalidIds := ids.filter invalidId
    if h : invalidIds ≠ [] then
      .rejected ("Oops! \x22" ++ invalidIds.head h
        ++ "\x22 doesn\x27t look like a valid Walmart SKU code. Please check and try again. (SKU codes are usually 6-20 characters)")
    else
      .request ⟨ids, maxReviews⟩

/-- The `handleSubmit` of `src/frontend/pages/index.tsx` (lines 46–70), up to the
dispatch decision: same tokenization, only the empty guard, then the fetch
body. -/
def handleSubmitIndex (text : String) (maxReviews : ℚ) : SubmitOutcome :=
  let ids := tokenizeIds text
  if ids.length = 0 then
    .rejected "Please enter at least one item ID."
  else
    .request ⟨ids, maxReviews⟩

/-! ## Spec-modelled batch engine

The backend (`scrapeBatch`, §6 of the spec) is not part of `src/`; `src/`
holds only its frontend caller and the response type declarations. -/

/-- The `BatchResponse` shape — the response shape of the spec (§3): both lists always
present. -/
structure BatchResponse where
  results : List ProductResult
  errors : List ErrorResult
deriving DecidableEq

/-- A `BatchResponse` read back through the `ApiResponse` type of the frontend:
both optional fields populated. -/
def BatchResponse.toApiResponse (b : BatchResponse) : ApiResponse :=
  ⟨some b.results, some b.errors⟩

/-- Modelled from the spec: the `scrapeBatch` operation of the backend Orchestrator
(§4.7, §6, §7) is not under `src/`.  Each identifier is validated with the
§4.1 rule (`specAccepts`); an invalid identifier yields an `ErrorResult`
tagged `InvalidFormat` and consumes no task; each valid identifier yields one
`ProductResult` whose `reviews` list is truncated to `max_reviews_per_item`
(§4.5).  The per-item extraction itself is the parameter `fetchItem`. -/
def scrapeBatch (fetchItem : String → ProductResult) (itemIds : List String)
    (maxReviews : ℕ) : BatchResponse where
  results := (itemIds.filter (fun id => specAccepts id)).map (fun id =>
    let p := fetchItem id
    { p with item_id := id, reviews := p.reviews.take maxReviews })
  errors := (itemIds.filter (fun id => !specAccepts id)).map (fun id =>
    ⟨id, "InvalidFormat"⟩)

/-! ## Claims C1 and C2 -/

/-- C1 — counterexample.  The claim states the validator accepts `id` iff the
*stripped* string has length ≥ 6 (with original length ≤ 20 and the stripped
string alphanumeric).  For `id = "a-b-c-d"` the original length is 7, so the
filter of the code (`invalidId`) does *not* flag it, yet the stripped string
`"abcd"` has length 4 < 6, so the claimed acceptance condition
(`specAccepts`) fails: the biconditional is false at this input. -/
theorem c1_counterexample :
    ¬ ((invalidId "a-b-c-d" = false) ↔ (specAccepts "a-b-c-d" = true)) := by
  decide

/-- C1 (amended) — the validator of `src/unnamed/part_000` accepts `id` iff
the **original** identifier has length between 6 and 20 and the string
obtained by stripping dashes and underscores is non-empty and wholly
alphanumeric; the length-6 lower bound is checked on the original string,
not on the stripped one. -/
theorem c1_validator_amended (id : String) :
    invalidId id = false ↔
      (6 ≤ id.length ∧ id.length ≤ 20 ∧
        1 ≤ (stripDashUnderscore id).length ∧
        (stripDashUnderscore id).toList.all isAsciiAlphanum = true) := by
  unfold invalidId
  simp only [Bool.or_eq_false_iff, Bool.not_eq_false', Bool.and_eq_true,
    decide_eq_false_iff_not, decide_eq_true_eq, not_lt, ge_iff_le]
  tauto

/-- C2 — for the batch input `["5337824985", "bad"]` with
`max_reviews_per_item = 5`, the (spec-modelled) engine returns exactly one
error entry `{item_id := "bad", error := "InvalidFormat"}` and exactly one
result entry, for `"5337824985"`, carrying at most 5 reviews — whatever the
per-item extraction returns, the valid identifier is processed despite the
invalid one in the same batch. -/
theorem c2_batch_scenario (fetchItem : String → ProductResult) :
    (scrapeBatch fetchItem ["5337824985", "bad"] 5).errors
        = [⟨"bad", "InvalidFormat"⟩] ∧
      (scrapeBatch fetchItem ["5337824985", "bad"] 5).results.map
          (fun p => p.item_id) = ["5337824985"] ∧
      ∀ p ∈ (scrapeBatch fetchItem ["5337824985", "bad"] 5).results,
        p.reviews.length ≤ 5 := by
  have h1 : specAccepts "5337824985" = true := by decide
  have h2 : specAccepts "bad" = false := by decide
  refine ⟨?_, ?_, ?_⟩
  · simp [scrapeBatch, List.filter, h1, h2]
  · simp [scrapeBatch, List.filter, h1, h2]
  · intro p hp
    simp only [scrapeBatch, List.filter, h1, h2, Bool.not_true, Bool.not_false,
      List.map, List.mem_singleton] at hp
    subst hp
    simp

/-! ## The dispatch pipeline of the part_000 page -/

/-- The `maxReviews` number input of `src/unnamed/part_000` (lines 712–725)
carries `type="number"`, `min={1}`, `max={10000}` and the default integer
step.  Under HTML constraint validation (the form sets no `noValidate`), the
browser refuses to fire the submit event while the value underflows `min`,
overflows `max` or mismatches the integer step; this predicate embeds that
gate: an integer value between 1 and 10000. -/
def maxReviewsInputOk (m : ℚ) : Bool :=
  1 ≤ m && m ≤ 10000 && m.den = 1

/-- The dispatch pipeline of the part_000 page: constraint validation of the
number input gates the submit handler; the value is the request body of the
issued fetch, `none` when no fetch is issued. -/
def dispatchMain (text : String) (m : ℚ) : Option RequestBody :=
  if maxReviewsInputOk m then
    match handleSubmitMain text m with
    | .request b => some b
    | .rejected _ => none
  else none

/-- Helper: any request body the part_000 handler dispatches is exactly the
tokenized identifier list paired with the submitted max-reviews value. -/
theorem handleSubmitMain_request_eq (text : String) (m : ℚ) (b : RequestBody)
    (h : handleSubmitMain text m = .request b) : b = ⟨tokenizeIds text, m⟩ := by
  unfold handleSubmitMain at h
  by_cases h0 : (tokenizeIds text).length = 0
  · simp [h0] at h
  by_cases h10 : (tokenizeIds text).length > 10
  · simp [h0, h10] at h
  simp only [h0, h10, if_false, if_true, reduceIte] at h
  split at h
  · simp at h
  · exact (SubmitOutcome.request.injEq .. ▸ h :).symm

/-- Helper: any request body the index.tsx handler dispatches is exactly the
tokenized identifier list paired with the submitted max-reviews value. -/
theorem handleSubmitIndex_request_eq (text : String) (m : ℚ) (b : RequestBody)
    (h : handleSubmitIndex text m = .request b) : b = ⟨tokenizeIds text, m⟩ := by
  unfold handleSubmitIndex at h
  by_cases h0 : (tokenizeIds text).length = 0
  · simp [h0] at h
  simp only [h0, if_false, reduceIte] at h
  exact (SubmitOutcome.request.injEq .. ▸ h :).symm

/-! ## Claims C3, C4, C5, C9 -/

/-- C3 — counterexample.  The claim says a submission with more than 10
identifiers is rejected before any fetch; but the `index.tsx` variant has no
count ceiling: for a textarea holding 11 identifiers its handler issues the
fetch. -/
theorem c3_counterexample :
    (tokenizeIds "1111111111 1111111111 1111111111 1111111111 1111111111 1111111111 1111111111 1111111111 1111111111 1111111111 1111111111").length = 11 ∧
      handleSubmitIndex "1111111111 1111111111 1111111111 1111111111 1111111111 1111111111 1111111111 1111111111 1111111111 1111111111 1111111111" 5
        = SubmitOutcome.request
            ⟨tokenizeIds "1111111111 1111111111 1111111111 1111111111 1111111111 1111111111 1111111111 1111111111 1111111111 1111111111 1111111111", 5⟩ := by
  decide

/-- C3 (amended) — a fetch is issued by the part_000 handler only when the
tokenized identifier list is non-empty and has at most 10 elements (both
guards reject before any fetch); the index.tsx handler enforces only the
non-emptiness guard, and issues the fetch even for lists of more than 10
identifiers. -/
theorem c3_guards_amended (text : String) (m : ℚ) (b : RequestBody) :
    (handleSubmitMain text m = .request b →
        1 ≤ (tokenizeIds text).length ∧ (tokenizeIds text).length ≤ 10) ∧
      (handleSubmitIndex text m = .request b → 1 ≤ (tokenizeIds text).length) := by
  constructor
  · intro h
    unfold handleSubmitMain at h
    by_cases h0 : (tokenizeIds text).length = 0
    · simp [h0] at h
    by_cases h10 : (tokenizeIds text).length > 10
    · simp [h0, h10] at h
    omega
  · intro h
    unfold handleSubmitIndex at h
    by_cases h0 : (tokenizeIds text).length = 0
    · simp [h0] at h
    omega

/-- C3 — witness for the amended theorem at a concrete accepted input. -/
theorem c3_guards_witness :
    1 ≤ (tokenizeIds "5337824985").length ∧ (tokenizeIds "5337824985").length ≤ 10 :=
  (c3_guards_amended "5337824985" 5 ⟨["5337824985"], 5⟩).1 (by decide)

/-- C4 — whenever the tokenized input contains an identifier failing the
format rule, the part_000 handler never issues the scrape fetch (so the
identifier can consume no network or browser resource downstream). -/
theorem c4_invalid_blocks_fetch (text : String) (m : ℚ) (b : RequestBody)
    (hex : ∃ id, id ∈ tokenizeIds text ∧ invalidId id = true) :
    handleSubmitMain text m ≠ .request b := by
  obtain ⟨id, hmem, hinv⟩ := hex
  intro h
  unfold handleSubmitMain at h
  by_cases h0 : (tokenizeIds text).length = 0
  · simp [h0] at h
  by_cases h10 : (tokenizeIds text).length > 10
  · simp [h0, h10] at h
  simp only [h0, h10, if_false, reduceIte] at h
  split at h
  · simp at h
  · rename_i hnil
    rw [not_not] at hnil
    have : id ∈ (tokenizeIds text).filter invalidId := List.mem_filter.mpr ⟨hmem, hinv⟩
    rw [hnil] at this
    exact absurd this (List.not_mem_nil id)

/-- C4 — witness: a concrete input holding the invalid identifier `"bad"`
never produces the fetch. -/
theorem c4_invalid_blocks_fetch_witness :
    handleSubmitMain "bad" 5 ≠ SubmitOutcome.request ⟨["bad"], 5⟩ :=
  c4_invalid_blocks_fetch "bad" 5 ⟨["bad"], 5⟩ ⟨"bad", by decide, by decide⟩

/-- C5 — every request actually dispatched by the part_000 page carries a
`max_reviews_per_item` that is an integer (denominator 1) between 1 and
10000: the constraint attributes of the number input gate the submission. -/
theorem c5_max_reviews_range (text : String) (m : ℚ) (b : RequestBody)
    (h : dispatchMain text m = some b) :
    1 ≤ b.max_reviews_per_item ∧ b.max_reviews_per_item ≤ 10000 ∧
      b.max_reviews_per_item.den = 1 := by
  unfold dispatchMain at h
  split at h
  · rename_i hok
    split at h
    · rename_i b0 hreq
      have hb : b0 = b := by exact Option.some.injEq .. ▸ h
      have := handleSubmitMain_request_eq text m b0 hreq
      subst hb
      rw [this]
      simp only [maxReviewsInputOk, Bool.and_eq_true, decide_eq_true_eq] at hok
      exact ⟨hok.1.1, hok.1.2, hok.2⟩
    · simp at h
  · simp at h

/-- C5 — witness at a concrete dispatched request. -/
theorem c5_max_reviews_range_witness :
    1 ≤ ((⟨["5337824985"], 5⟩ : RequestBody)).max_reviews_per_item ∧
      ((⟨["5337824985"], 5⟩ : RequestBody)).max_reviews_per_item ≤ 10000 ∧
      ((⟨["5337824985"], 5⟩ : RequestBody)).max_reviews_per_item.den = 1 :=
  c5_max_reviews_range "5337824985" 5 ⟨["5337824985"], 5⟩ (by decide)

/-- C9 — on any input whose tokenized identifier list is non-empty, has at
most 10 elements and contains only identifiers passing the format rule, the
handlers of the two page variants agree, both issuing the fetch with the identical
body `{item_ids := tokenizeIds text, max_reviews_per_item := m}`, and that
identifier list never contains the empty string. -/
theorem c9_handlers_agree (text : String) (m : ℚ)
    (hne : tokenizeIds text ≠ [])
    (hle : (tokenizeIds text).length ≤ 10)
    (hval : ∀ id ∈ tokenizeIds text, invalidId id = false) :
    handleSubmitMain text m = handleSubmitIndex text m ∧
      handleSubmitMain text m = .request ⟨tokenizeIds text, m⟩ ∧
      ("" : String) ∉ tokenizeIds text := by
  have h0 : ¬ (tokenizeIds text).length = 0 := by
    simpa [List.length_eq_zero] using hne
  have h10 : ¬ (tokenizeIds text).length > 10 := by omega
  have hfil : (tokenizeIds text).filter invalidId = [] := by
    rw [List.filter_eq_nil_iff]
    intro a ha
    simp [hval a ha]
  have hmain : handleSubmitMain text m = .request ⟨tokenizeIds text, m⟩ := by
    unfold handleSubmitMain
    simp [h0, h10, hfil]
  have hidx : handleSubmitIndex text m = .request ⟨tokenizeIds text, m⟩ := by
    unfold handleSubmitIndex
    simp [h0]
  refine ⟨hmain.trans hidx.symm, hmain, ?_⟩
  intro hmem
  unfold tokenizeIds at hmem
  have := List.of_mem_filter hmem
  simp at this

/-- C9 — witness at a concrete two-identifier input. -/
theorem c9_handlers_agree_witness :
    handleSubmitMain "5337824985,123456" 7 = handleSubmitIndex "5337824985,123456" 7 ∧
      handleSubmitMain "5337824985,123456" 7
        = SubmitOutcome.request ⟨tokenizeIds "5337824985,123456", 7⟩ ∧
      ("" : String) ∉ tokenizeIds "5337824985,123456" :=
  c9_handlers_agree "5337824985,123456" 7 (by decide) (by decide) (by decide)

/-! ## Claim C6 — shape of the batch response -/

/-- C6 — counterexample.  The claim says every batch response carries both a
`results` list and an `errors` list, "both fields always present"; but the
own `ApiResponse` type of the frontend (lines 36–39 of `src/unnamed/part_000`)
declares both fields optional, and the rendering code guards for their
absence — the response with neither field is a well-typed inhabitant. -/
theorem c6_counterexample :
    ¬ (∀ resp : ApiResponse, resp.results.isSome ∧ resp.errors.isSome) := by
  intro h
  have hi := h ⟨none, none⟩
  simp at hi

/-- C6 (amended) — the `ApiResponse` type of the frontend marks both lists
optional; the responses produced by the (spec-modelled) batch engine do
always populate both fields, and each entry carries its own `item_id`: the
result entries are exactly the accepted submitted identifiers and the error
entries exactly the rejected ones. -/
theorem c6_response_fields_amended (fetchItem : String → ProductResult)
    (ids : List String) (maxReviews : ℕ) :
    ((scrapeBatch fetchItem ids maxReviews).toApiResponse).results.isSome = true ∧
      ((scrapeBatch fetchItem ids maxReviews).toApiResponse).errors.isSome = true ∧
      (scrapeBatch fetchItem ids maxReviews).results.map (fun p => p.item_id)
        = ids.filter (fun id => specAccepts id) ∧
      (scrapeBatch fetchItem ids maxReviews).errors.map (fun e => e.item_id)
        = ids.filter (fun id => !specAccepts id) := by
  refine ⟨rfl, rfl, ?_, ?_⟩
  · simp only [scrapeBatch, List.map_map]
    exact List.map_id _
  · simp only [scrapeBatch, List.map_map]
    exact List.map_id _

/-! ## Claim C7 — the Review record

The Review Parser that builds these records lives in the backend (§4.4 of
the spec), which is not under `src/`; `src/` holds only the `Review` type
declaration, so the parser is modelled here from the spec. -/

/-- A raw review block as handed to the parser: every field independently
present or absent (glossary: "unparsed page content fragment representing
one review, before field extraction"). -/
structure RawReviewBlock where
  raw_review_id : Option String
  raw_author : Option String
  raw_stars : Option ℕ
  raw_title : Option String
  raw_body : Option String
  raw_date : Option String
  raw_verified : Bool
  raw_location : Option String
  raw_helpful : Option ℕ
  raw_not_helpful : Option ℕ
  raw_images : List String
deriving DecidableEq

/-- The placeholder substituted for an unparsable author name (spec §4.4:
"author from a name field (missing → placeholder string, never null)"). -/
def authorPlaceholder : String := "Anonymous"

/-- Modelled from the spec: the backend Review Parser (§4.4) is not under
`src/`.  "Extracts each field independently with its own fallback": rating
from a star-count indicator kept only as an integer 1–5 (§3), else `null`;
author defaulting to the placeholder; title and body defaulting to the empty
string; a block yields `Skip` (`none`) only when both author and body are
unextractable. -/
def parseReview (block : RawReviewBlock) : Option Review :=
  if block.raw_author = none ∧ block.raw_body = none then none
  else some
    { review_id := block.raw_review_id
      author_name := block.raw_author.getD authorPlaceholder
      rating := match block.raw_stars with
        | some n => if 1 ≤ n ∧ n ≤ 5 then some (n : ℚ) else none
        | none => none
      title := block.raw_title.getD ""
      body := block.raw_body.getD ""
      created_at := block.raw_date
      verified_purchase := block.raw_verified
      location := block.raw_location
      helpful_count := block.raw_helpful.getD 0
      not_helpful_count := block.raw_not_helpful.getD 0
      images := block.raw_images }

/-- C7 — every `Review` the parser produces has an `author_name` string that
is never absent (the placeholder is substituted when the raw name is
missing), a `rating` that is either `null` or an integer between 1 and 5,
`title` and `body` strings that are possibly empty but never absent, and an
`images` list preserving the URL order of the raw block. -/
theorem c7_review_fields (block : RawReviewBlock) (r : Review)
    (h : parseReview block = some r) :
    r.author_name = block.raw_author.getD authorPlaceholder ∧
      (block.raw_author = none → r.author_name = authorPlaceholder) ∧
      (r.rating = none ∨ ∃ n : ℕ, r.rating = some (n : ℚ) ∧ 1 ≤ n ∧ n ≤ 5) ∧
      r.title = block.raw_title.getD "" ∧
      r.body = block.raw_body.getD "" ∧
      r.images = block.raw_images := by
  unfold parseReview at h
  split at h
  · simp at h
  · rw [Option.some.injEq] at h
    subst h
    refine ⟨rfl, fun ha => by simp [ha, authorPlaceholder], ?_, rfl, rfl, rfl⟩
    rcases hs : block.raw_stars with _ | n
    · exact Or.inl (by simp [hs])
    · by_cases hr : 1 ≤ n ∧ n ≤ 5
      · exact Or.inr ⟨n, by simp [hs, hr], hr.1, hr.2⟩
      · exact Or.inl (by simp [hs, hr])

/-- A sample raw block with a missing author, a missing title and an
in-range star count, used to witness the parser theorem. -/
def sampleBlock : RawReviewBlock :=
  ⟨none, none, some 3, none, some "works", none, true, none, some 2, none,
    ["https://img/1.jpg"]⟩

/-- The review `sampleBlock` parses to. -/
def sampleReview : Review :=
  { review_id := none, author_name := "Anonymous", rating := some 3,
    title := "", body := "works", created_at := none,
    verified_purchase := true, location := none, helpful_count := 2,
    not_helpful_count := 0, images := ["https://img/1.jpg"] }

/-- C7 — witness: `sampleBlock` parses to a review with the placeholder
author, rating 3, empty title and the images preserved. -/
theorem c7_review_fields_witness :
    sampleReview.author_name = sampleBlock.raw_author.getD authorPlaceholder ∧
      (sampleBlock.raw_author = none → sampleReview.author_name = authorPlaceholder) ∧
      (sampleReview.rating = none ∨
        ∃ n : ℕ, sampleReview.rating = some (n : ℚ) ∧ 1 ≤ n ∧ n ≤ 5) ∧
      sampleReview.title = sampleBlock.raw_title.getD "" ∧
      sampleReview.body = sampleBlock.raw_body.getD "" ∧
      sampleReview.images = sampleBlock.raw_images :=
  c7_review_fields sampleBlock sampleReview (by decide)

/-! ## Claim C8 — `renderStars`

`renderStars` appears in both pages with the same logic
(`src/unnamed/part_000` lines 136–163 and `src/frontend/pages/index.tsx`
lines 103–116); the part_000 `Number(rating)` conversion is the identity on
an already numeric rating.  A star span is rendered filled when
`i < fullStars`, at half opacity when `i === fullStars && hasHalf`, and gray
otherwise. -/

/-- One rendered star glyph: fully colored, half-opacity colored, or gray. -/
inductive Star where
  | filled
  | half
  | empty
deriving DecidableEq

/-- The value `renderStars` produces: the literal string `"N/A"` or a row of
star elements. -/
inductive StarsRender where
  | na
  | stars (l : List Star)
deriving DecidableEq

/-- JS truncation: `Math.trunc`, which `x % 1 = x - trunc x` is built on
(the JS remainder takes the sign of the dividend). -/
def jsTrunc (r : ℚ) : ℤ := if 0 ≤ r then r.floor else -((-r).floor)

/-- The source computation `hasHalf = numRating % 1 >= 0.5`. -/
def jsHasHalf (r : ℚ) : Bool := decide ((1 : ℚ)/2 ≤ r - (jsTrunc r : ℚ))

/-- The star at index `i` of the rendered row: `isFilled = i < fullStars`,
`isHalf = i === fullStars && hasHalf`. -/
def starAt (fullStars : ℤ) (hasHalf : Bool) (i : ℕ) : Star :=
  if (i : ℤ) < fullStars then .filled
  else if (i : ℤ) = fullStars ∧ hasHalf = true then .half
  else .empty

/-- The `renderStars` function: a falsy rating (absent or 0) yields `"N/A"`; otherwise
`[...Array(5)].map(...)` renders five stars with
`fullStars = Math.floor(numRating)`. -/
def renderStars (rating : Option ℚ) : StarsRender :=
  match rating with
  | none => .na
  | some r =>
    if r = 0 then .na
    else .stars ((List.range 5).map (starAt r.floor (jsHasHalf r)))

/-- The star row of a render result (empty for `"N/A"`). -/
def starsOf : StarsRender → List Star
  | .na => []
  | .stars l => l

/-- A rendered star is filled exactly when its index is below `fullStars`. -/
theorem starAt_eq_filled_iff (F : ℤ) (h : Bool) (i : ℕ) :
    starAt F h i = .filled ↔ (i : ℤ) < F := by
  unfold starAt
  split_ifs <;> simp_all

/-- A rendered star is a half star exactly when its index equals `fullStars`
and the fractional part reached one half. -/
theorem starAt_eq_half_iff (F : ℤ) (h : Bool) (i : ℕ) :
    starAt F h i = .half ↔ (¬ (i : ℤ) < F ∧ (i : ℤ) = F ∧ h = true) := by
  unfold starAt
  split_ifs <;> simp_all

/-- Counting the filled stars of the five-element row: the floor clamped to
the range 0–5. -/
theorem count_filled_render (F : ℤ) (h : Bool) :
    ((List.range 5).map (starAt F h)).count Star.filled
      = Int.toNat (min 5 (max 0 F)) := by
  have hr : List.range 5 = [0, 1, 2, 3, 4] := rfl
  rw [hr]
  simp only [List.map_cons, List.map_nil, List.count_cons, List.count_nil,
    beq_iff_eq, starAt_eq_filled_iff, Nat.cast_ofNat, Nat.cast_one, Nat.cast_zero]
  split_ifs <;> omega

/-- At most one of the five stars is a half star. -/
theorem count_half_le_one (F : ℤ) (h : Bool) :
    ((List.range 5).map (starAt F h)).count Star.half ≤ 1 := by
  have hr : List.range 5 = [0, 1, 2, 3, 4] := rfl
  rw [hr]
  simp only [List.map_cons, List.map_nil, List.count_cons, List.count_nil,
    beq_iff_eq, starAt_eq_half_iff, Nat.cast_ofNat, Nat.cast_one, Nat.cast_zero]
  cases h
  · simp
  · simp only [and_true]
    split_ifs <;> omega

/-- C8 — counterexample.  The claim says a non-falsy numeric rating renders
`floor(rating)` filled stars; at rating 6 the row holds only 5 filled stars
while `floor(6) = 6`. -/
theorem c8_counterexample :
    ¬ ((starsOf (renderStars (some 6))).count Star.filled
        = Int.toNat ((6 : ℚ).floor)) := by
  decide

/-- C8 (amended) — `renderStars` returns `"N/A"` whenever the rating is
absent or 0 (the falsy check), and for every other rating renders exactly 5
star elements, of which `max 0 (min 5 (floor rating))` — the floor clamped
to the 0–5 range — are filled, with at most one half star. -/
theorem c8_renderStars_amended :
    renderStars none = .na ∧
      renderStars (some 0) = .na ∧
      ∀ r : ℚ, r ≠ 0 →
        (starsOf (renderStars (some r))).length = 5 ∧
          (starsOf (renderStars (some r))).count Star.filled
            = Int.toNat (min 5 (max 0 r.floor)) ∧
          (starsOf (renderStars (some r))).count Star.half ≤ 1 := by
  refine ⟨rfl, rfl, fun r hr => ?_⟩
  have hs : renderStars (some r)
      = .stars ((List.range 5).map (starAt r.floor (jsHasHalf r))) := by
    simp only [renderStars]
    rw [if_neg hr]
  rw [hs]
  exact ⟨by simp [starsOf], count_filled_render r.floor (jsHasHalf r),
    count_half_le_one r.floor (jsHasHalf r)⟩

/-- C8 — witness: at rating 9/2 the row holds 5 stars, 4 of them filled and
one a half star. -/
theorem c8_renderStars_witness :
    (starsOf (renderStars (some ((9 : ℚ)/2)))).length = 5 ∧
      (starsOf (renderStars (some ((9 : ℚ)/2)))).count Star.filled
        = Int.toNat (min 5 (max 0 ((9 : ℚ)/2).floor)) ∧
      (starsOf (renderStars (some ((9 : ℚ)/2)))).count Star.half ≤ 1 :=
  c8_renderStars_amended.2.2 ((9 : ℚ)/2) (by norm_num)

/-! ## Claim C10 — state after a failed scrape request -/

/-- The component state touched by `handleSubmit`: the `data`, `error` and
`loading` `useState` hooks. -/
structure UiState where
  data : Option ApiResponse
  error : Option String
  loading : Bool
deriving DecidableEq

/-- Outcome of the awaited `fetch`: the promise rejects (network error), the
response arrives non-2xx (`!res.ok`, with the body text read for the thrown
message), or it succeeds with a parsed JSON body. -/
inductive FetchOutcome where
  | networkError (msg : String)
  | httpError (status : ℕ) (txt : String)
  | success (json : ApiResponse)
deriving DecidableEq

/-- Whether the fetch failed (network error or non-2xx response). -/
def FetchOutcome.isFailure : FetchOutcome → Bool
  | .success _ => false
  | _ => true

/-- JS `String.prototype.includes`. -/
def strIncludes (s pat : String) : Bool :=
  s.toList.tails.any (fun t => pat.toList.isPrefixOf t)

/-- The message of the `Error` thrown on a non-2xx response:
`txt` when non-empty, else the HTTP status text. -/
def httpThrownMsg (status : ℕ) (txt : String) : String :=
  if txt ≠ "" then txt else "HTTP " ++ toString status

/-- The `errorMessage` selection of the part_000 catch block (lines
98–112). -/
def chooseErrMain (msg : String) : String :=
  if strIncludes msg "Failed to fetch" || strIncludes msg "NetworkError" then
    "Could not connect to server. Please check your internet connection and try again."
  else if strIncludes msg "timeout" then
    "Request timed out. The server might be busy. Please try again in a moment."
  else if strIncludes msg "Maximum 10 items" then msg
  else if strIncludes msg "valid Walmart item IDs" then msg
  else if msg ≠ "" then msg
  else "An error occurred while scraping. Please try again."

/-- One full run of the part_000 `handleSubmit` (lines 48–119) over the
component state, given the outcome of the fetch: clear `error` and `data`,
run the guards, and on dispatch set `loading`, await the outcome, assign
`data` on success or `error` in the catch block, and reset `loading` in the
`finally` block. -/
def runSubmitMain (s : UiState) (text : String) (m : ℚ) (o : FetchOutcome) :
    UiState :=
  let s1 : UiState := { s with error := none, data := none }
  match handleSubmitMain text m with
  | .rejected msg => { s1 with error := some msg }
  | .request _ =>
    let s2 := { s1 with loading := true }
    match o with
    | .success json => { s2 with data := some json, loading := false }
    | .networkError msg =>
        { s2 with error := some (chooseErrMain msg), loading := false }
    | .httpError st txt =>
        { s2 with error := some (chooseErrMain (httpThrownMsg st txt)), loading := false }

/-- One full run of the index.tsx `handleSubmit` (lines 46–86): same shape,
with the message of the caught error stored unchanged. -/
def runSubmitIndex (s : UiState) (text : String) (m : ℚ) (o : FetchOutcome) :
    UiState :=
  let s1 : UiState := { s with error := none, data := none }
  match handleSubmitIndex text m with
  | .rejected msg => { s1 with error := some msg }
  | .request _ =>
    let s2 := { s1 with loading := true }
    match o with
    | .success json => { s2 with data := some json, loading := false }
    | .networkError msg => { s2 with error := some msg, loading := false }
    | .httpError st txt =>
        { s2 with error := some (httpThrownMsg st txt), loading := false }

/-- C10 — in every execution of either submit handler in which the
dispatched scrape request fails (network error or non-2xx), the handler
terminates with `data = none` and `loading = false`, whatever state the
component started in: `data` is cleared at the start, the error path never
assigns it, and the finally branch resets `loading`. -/
theorem c10_failure_resets_state (s : UiState) (text : String) (m : ℚ)
    (o : FetchOutcome) (b : RequestBody) (hf : o.isFailure = true) :
    (handleSubmitMain text m = .request b →
        (runSubmitMain s text m o).data = none ∧
          (runSubmitMain s text m o).loading = false) ∧
      (handleSubmitIndex text m = .request b →
        (runSubmitIndex s text m o).data = none ∧
          (runSubmitIndex s text m o).loading = false) := by
  constructor <;> intro h
  · unfold runSubmitMain
    rw [h]
    cases o <;> simp_all [FetchOutcome.isFailure]
  · unfold runSubmitIndex
    rw [h]
    cases o <;> simp_all [FetchOutcome.isFailure]

/-- C10 — witness: starting from a state holding stale data, a network
failure of a dispatched request leaves both variants with no data and
loading off. -/
theorem c10_failure_resets_state_witness :
    (runSubmitMain ⟨some ⟨none, none⟩, none, false⟩ "5337824985" 5
        (.networkError "Failed to fetch")).data = none ∧
      (runSubmitMain ⟨some ⟨none, none⟩, none, false⟩ "5337824985" 5
        (.networkError "Failed to fetch")).loading = false ∧
      (runSubmitIndex ⟨some ⟨none, none⟩, none, false⟩ "5337824985" 5
        (.networkError "Failed to fetch")).data = none ∧
      (runSubmitIndex ⟨some ⟨none, none⟩, none, false⟩ "5337824985" 5
        (.networkError "Failed to fetch")).loading = false :=
  ⟨((c10_failure_resets_state ⟨some ⟨none, none⟩, none, false⟩ "5337824985" 5
        (.networkError "Failed to fetch") ⟨["5337824985"], 5⟩ (by decide)).1
      (by decide)).1,
    ((c10_failure_resets_state ⟨some ⟨none, none⟩, none, false⟩ "5337824985" 5
        (.networkError "Failed to fetch") ⟨["5337824985"], 5⟩ (by decide)).1
      (by decide)).2,
    ((c10_failure_resets_state ⟨some ⟨none, none⟩, none, false⟩ "5337824985" 5
        (.networkError "Failed to fetch") ⟨["5337824985"], 5⟩ (by decide)).2
      (by decide)).1,
    ((c10_failure_resets_state ⟨some ⟨none, none⟩, none, false⟩ "5337824985" 5
        (.networkError "Failed to fetch") ⟨["5337824985"], 5⟩ (by decide)).2
      (by decide)).2⟩

end WalmartScraper
